import Mathlib

/-!
# Verification of the dummy-data generator front-end

A shallow embedding of the generation pipeline of this repository:

* `specificInstructions`, `formattingRules`, `systemInstruction`, `fullPrompt` —
  the prompt compiler inside `generateDummyData` (services/geminiService code,
  concatenated into `src/components/ErrorAlert.tsx`);
* `onChunkCalls`, `generateDummyData` — the observable behaviour of the
  streaming client: the sequence of `onChunk` invocations produced from the chunks the
  transport delivers, and the promise result;
* `handleGenerate` — the `App` submission handler (appended to
  `src/tests/geminiService.test.ts`), as a function on an explicit state record;
* `getMimeType`, `getFileExtension`, `downloadData` — `src/utils/fileUtils.ts`;
* `renderDataDisplay`, `handleCopy`, `handleDownload` — the `DataDisplay`
  component (`src/unnamed/part_000`).

The TypeScript `DataFormat` enum (its defining file `types.ts` is not in the
sources; only its four members `JSON`/`CSV`/`XML`/`TXT` are visible in callers
and tests) is a string enum at runtime, so formats are modelled as `String`
with the four known values listed in `knownFormats`.

Machine strings are Lean `String`s (lists of characters); `prompt.trim()` and
`format.toLowerCase()` are modelled by `jsTrim` and `jsToLowerCase` below
because the code only meets ASCII inputs here.
-/

/-- The four members of the `DataFormat` string enum: `types.ts` is absent from
the sources, but every caller and test uses exactly these four values. -/
def knownFormats : List String := ["JSON", "CSV", "XML", "TXT"]

/-- The five values of the date-format selector in `DataInputForm`
(`src/unnamed/part_001`). -/
def allowedDateFormats : List String :=
  ["ISO 8601", "YYYY-MM-DD", "MM/DD/YYYY", "DD/MM/YYYY", "Unix Timestamp"]

/-- The six values of the decimal-precision selector in `DataInputForm`
(`src/unnamed/part_001`). -/
def allowedDecimalPlaces : List String := ["default", "0", "1", "2", "3", "4"]

/-- `GenerationOptions` from `types.ts` (absent from the sources; the shape
`{ dateFormat, decimalPlaces }` is visible at the call site in `App`). -/
structure GenerationOptions where
  dateFormat : String
  decimalPlaces : String
deriving DecidableEq, Repr

/-- The `switch (format)` assigning `specificInstructions` in
`generateDummyData`; with no `default` case the variable keeps its initial
empty-string value for a format outside the four enum members. -/
def specificInstructions (format : String) : String :=
  if format = "JSON" then
    "\n      - Generate valid JSON syntax.\n      - Support nested objects and arrays deeply if requested.\n      - Use specific data types (boolean, numbers, null) correctly, do not wrap everything in strings unless necessary.\n      "
  else if format = "CSV" then
    "\n      - Generate valid CSV with a header row.\n      - If nested data is requested, flatten it using dot notation for headers (e.g., \x27address.city\x27) or understandable conventions.\n      - Enclose strings containing commas in quotes.\n      "
  else if format = "XML" then
    "\n      - Generate valid XML with a single root element (e.g., <root> or <data> if not specified).\n      - Use semantic tags based on property names.\n      - Handle nested structures as nested elements.\n      "
  else if format = "TXT" then
    "\n      - Format as plain text or structured text as requested (e.g., lists, paragraphs).\n      "
  else
    ""

/-- The ternary on `options.decimalPlaces !== "default"` interpolated
into `formattingRules`. -/
def precisionText (decimalPlaces : String) : String :=
  if decimalPlaces ≠ "default" then
    "Round all floating-point numbers to exactly " ++ decimalPlaces ++ " decimal places."
  else
    "Use standard precision for numbers."

/-- The `formattingRules` template text before `${options.dateFormat}`. -/
def frPre : String :=
  "\n  STRICT FORMATTING RULES:\n  1. **Date Format**: All date fields must strictly follow this format: \""

/-- The `formattingRules` template text between `${options.dateFormat}` and
the number-precision ternary. -/
def frMid : String :=
  "\". \n     - If \"Unix Timestamp\" is requested, return an integer (milliseconds since epoch).\n     - If \"ISO 8601\" is requested, use YYYY-MM-DDTHH:mm:ss.sssZ.\n  2. **Number Precision**: "

/-- The `formattingRules` template text after the ternary. -/
def frTail : String := "\n  "

/-- The `formattingRules` template literal of `generateDummyData`. -/
def formattingRules (options : GenerationOptions) : String :=
  frPre ++ options.dateFormat ++ frMid ++ precisionText options.decimalPlaces ++ frTail

/-- The `systemInstruction` template text before `${formattingRules}`. -/
def siHeader : String :=
  "You are a sophisticated dummy data generator engine.\n  Your task is to generate realistic, diverse, and structurally correct data based on the user\x27s description.\n  \n  CORE RULES:\n  1. Output ONLY the raw data. Do NOT include markdown code blocks (like ```json), explanatory text, or conversational filler.\n  2. **Complex Structures**: You are capable of generating deeply nested JSON, relational data, and complex object schemas.\n  3. **Data Types**: Respect requested types (Enums, Booleans, Floats, Dates). \n     - If a user asks for \"status (Active, Inactive)\", randomly assign these values.\n     - If a user asks for \"boolean\", output raw true/false.\n  4. **Quantity**: Adhere strictly to the requested number of items.\n  \n  "

/-- The `systemInstruction` template text between `${formattingRules}` and
`${specificInstructions}`. -/
def siMid : String := "\n\n  FORMAT SPECIFIC INSTRUCTIONS:\n  "

/-- The `systemInstruction` template text after `${specificInstructions}`. -/
def siTail : String := "\n  "

/-- The `systemInstruction` template literal of `generateDummyData`. -/
def systemInstruction (format : String) (options : GenerationOptions) : String :=
  siHeader ++ formattingRules options ++ siMid ++ specificInstructions format ++ siTail

/-- The `fullPrompt` template literal of `generateDummyData`. -/
def fullPrompt (userPrompt format : String) : String :=
  "Generate data in " ++ format ++ " format based on this request: \"" ++ userPrompt ++ "\""

/-- The streaming request `generateDummyData` opens against the external
service (`ai.models.generateContentStream` argument). -/
structure GenRequest where
  model : String
  contents : String
  sysInstruction : String
deriving DecidableEq, Repr

/-- The request payload built by `generateDummyData` before streaming. -/
def generateDummyDataRequest (userPrompt format : String)
    (options : GenerationOptions) : GenRequest :=
  { model := "gemini-3-flash-preview"
    contents := fullPrompt userPrompt format
    sysInstruction := systemInstruction format options }

/-- One chunk delivered by the transport stream; `text` is `none` when the
chunk object carries no text (`chunk.text` is `undefined` in TS). -/
structure StreamChunk where
  text : Option String
deriving DecidableEq, Repr

/-- A transport run: the chunks the stream delivered in order, and whether the
transport then raised an error (`fails = true`) instead of ending normally.
An error at the initial `generateContentStream` call is `fails = true` with
`chunks = []`. -/
structure StreamOutcome where
  chunks : List StreamChunk
  fails : Bool
deriving DecidableEq, Repr

/-- The arguments of the successive `onChunk` invocations performed by the
`for await` loop of `generateDummyData`: one call per delivered chunk whose
`chunk.text` is truthy (present and non-empty), in delivery order. -/
def onChunkCalls : List StreamChunk → List String
  | [] => []
  | c :: rest =>
    match c.text with
    | some t => if t = "" then onChunkCalls rest else t :: onChunkCalls rest
    | none => onChunkCalls rest

/-- The text fragments received from the transport: every chunk whose `text`
field is present (including the empty string). -/
def receivedTextFragments (chunks : List StreamChunk) : List String :=
  chunks.filterMap (fun c => c.text)

/-- Observable behaviour of `generateDummyData` over a transport run: the
`onChunk` call sequence, and the promise result. Its `try { ... } catch
(error) { console.error(...) }` catches every transport/API error and only
logs it, so the returned promise resolves (`Except.ok ()`) whether or not the
transport failed. -/
def generateDummyData (userPrompt format : String) (options : GenerationOptions)
    (outcome : StreamOutcome) : List String × Except String Unit :=
  (onChunkCalls outcome.chunks, Except.ok ())

/-- JS `String.prototype.trim` whitespace, restricted to the ASCII whitespace
characters that can occur here. -/
def isJsWhitespace (c : Char) : Bool :=
  c = ' ' || c = '\t' || c = '\n' || c = '\r' || c = '\x0b' || c = '\x0c'

/-- Model of `prompt.trim()`: strip whitespace from both ends. -/
def jsTrim (s : String) : String :=
  String.mk (((s.data.dropWhile isJsWhitespace).reverse.dropWhile isJsWhitespace).reverse)

/-- The UI state of `App` that `handleGenerate` reads and writes. -/
structure AppState where
  prompt : String
  format : String
  dateFormat : String
  decimalPlaces : String
  generatedData : String
  isLoading : Bool
  error : Option String
deriving DecidableEq, Repr

/-- The validation message `handleGenerate` sets for an empty prompt. -/
def validationErrorMsg : String :=
  "Please enter a description for the data you want to generate."

/-- The generic failure message of the `catch` branch in `handleGenerate`. -/
def generateFailureMsg : String :=
  "Failed to generate data. Please check your API key and try again."

/-- `handleGenerate` from `App`, as a state transformer. Returns the new state
and whether `generateDummyData` was invoked (i.e. whether a network call was
made). The guard `if (!prompt.trim())` sets the validation error and returns;
otherwise the handler sets loading, clears the error and the accumulator,
awaits `generateDummyData` appending each `onChunk` argument to
`generatedData`, sets the generic failure message if the promise rejected, and
finally clears the loading flag. -/
def handleGenerate (s : AppState) (outcome : StreamOutcome) : AppState × Bool :=
  if jsTrim s.prompt = "" then
    ({ s with error := some validationErrorMsg }, false)
  else
    let s₁ : AppState := { s with isLoading := true, error := none, generatedData := "" }
    let run := generateDummyData s.prompt s.format
      ⟨s.dateFormat, s.decimalPlaces⟩ outcome
    let s₂ : AppState :=
      { s₁ with generatedData := run.1.foldl (fun acc chunk => acc ++ chunk) s₁.generatedData }
    let s₃ : AppState :=
      match run.2 with
      | Except.ok _ => s₂
      | Except.error _ => { s₂ with error := some generateFailureMsg }
    ({ s₃ with isLoading := false }, true)

/-- `getMimeType` from `src/utils/fileUtils.ts` (the `switch` with a
`default` branch returning text/plain). -/
def getMimeType (format : String) : String :=
  if format = "JSON" then "application/json"
  else if format = "CSV" then "text/csv"
  else if format = "XML" then "application/xml"
  else if format = "TXT" then "text/plain"
  else "text/plain"

/-- Model of `format.toLowerCase()` on the ASCII strings used as formats. -/
def jsToLowerCase (s : String) : String :=
  String.mk (s.data.map (fun c => if 'A' ≤ c ∧ c ≤ 'Z' then Char.ofNat (c.toNat + 32) else c))

/-- `getFileExtension` from `src/utils/fileUtils.ts`. -/
def getFileExtension (format : String) : String :=
  jsToLowerCase format

/-- The observable result of a client-side file save. -/
structure SavedFile where
  filename : String
  mimeType : String
  content : String
deriving DecidableEq, Repr

/-- `downloadData` from `src/utils/fileUtils.ts`: `if (!content) return;` then
save `dummy-data.<ext>` with the tabled MIME type and the exact content. -/
def downloadData (content format : String) : Option SavedFile :=
  if content = "" then
    none
  else
    some { filename := "dummy-data." ++ getFileExtension format
           mimeType := getMimeType format
           content := content }

/-- JS string split with the newline character as separator, on the
character list: split at every newline character. -/
def splitOnNewline : List Char → List (List Char)
  | [] => [[]]
  | c :: rest =>
    if c = '\n' then [] :: splitOnNewline rest
    else
      match splitOnNewline rest with
      | [] => [[c]]
      | h :: t => (c :: h) :: t

/-- `const lines = data.split(newline)` in `DataDisplay`. -/
def splitLines (data : String) : List String :=
  (splitOnNewline data.data).map (fun l => String.mk l)

/-- What `DataDisplay` (`src/unnamed/part_000`) renders for a non-empty data
string: the possibly truncated display text, the truncation flag, and the
`remainingLines` figure shown in the annotation. -/
structure DataDisplayView where
  displayData : String
  isTruncated : Bool
  remainingLines : Int
deriving DecidableEq, Repr

/-- The rendering computation of `DataDisplay`:
`lines = data.split(newline)`, `isTruncated = lines.length > 50`,
`displayData = isTruncated ? lines.slice(0, 50).join(newline) : data`,
`remainingLines = lines.length - 50`. -/
def renderDataDisplay (data : String) : DataDisplayView :=
  let lines := splitLines data
  let isTruncated : Bool := 50 < lines.length
  { displayData := if isTruncated then String.intercalate "\n" (lines.take 50) else data
    isTruncated := isTruncated
    remainingLines := (lines.length : Int) - 50 }

/-- `handleDownload` in `DataDisplay`: exports the `data` prop, never the
truncated display text. -/
def handleDownload (data format : String) : Option SavedFile :=
  downloadData data format

/-- `handleCopy` in `DataDisplay`: `if (!data) return;` then
`navigator.clipboard.writeText(data)` — copies the `data` prop verbatim. -/
def handleCopy (data : String) : Option String :=
  if data = "" then none else some data

/-! ## An executable substring kit

`containsSub s pat` decides whether `pat` occurs as a contiguous substring of
`s`; the lemmas proved below let occurrence and non-occurrence be checked piece
by piece over the concatenation structure of the compiled prompt. -/

/-- `strHasPre p l`: `p` is a prefix of the character list `l`. -/
def strHasPre : List Char → List Char → Bool
  | [], _ => true
  | _ :: _, [] => false
  | p :: ps, c :: cs => p == c && strHasPre ps cs

/-- `strHasSub p l`: `p` occurs as a contiguous segment of `l`. -/
def strHasSub (p : List Char) : List Char → Bool
  | [] => strHasPre p []
  | c :: cs => strHasPre p (c :: cs) || strHasSub p cs

/-- `pat` occurs as a contiguous substring of `s`. -/
def containsSub (s pat : String) : Bool :=
  strHasSub pat.data s.data

/-- `x` is a suffix of the character list `l`. -/
def isSuffixB (x l : List Char) : Bool :=
  strHasPre x.reverse l.reverse

/-- Whether an occurrence of `p` could straddle the boundary between `a` and
`b`: some nonempty proper prefix of `p` ends `a` while the matching rest of
`p` starts `b`. -/
def straddles (p a b : List Char) : Bool :=
  (List.range p.length).any fun i =>
    i != 0 && isSuffixB (p.take i) a && strHasPre (p.drop i) b

/-- Whether any nonempty proper prefix of `p` is a suffix of `a` (a necessary
condition for an occurrence of `p` to straddle out of `a`, whatever follows). -/
def anySuffix (p a : List Char) : Bool :=
  (List.range p.length).any fun i => i != 0 && isSuffixB (p.take i) a

/-- The distinctive keyword phrase of the instruction block of each format;
this formalises the required keyword guidance of a format. -/
def formatGuidance (format : String) : String :=
  if format = "JSON" then "Generate valid JSON syntax"
  else if format = "CSV" then "Generate valid CSV with a header row"
  else if format = "XML" then "Generate valid XML with a single root element"
  else if format = "TXT" then "Format as plain text or structured text as requested"
  else ""

/-- The invariant prefix of the rounding instruction emitted by
`precisionText` when `decimalPlaces` is not `"default"`; a prompt contains a
"round to N decimal places" instruction iff it contains this text. -/
def roundInstructionHead : String :=
  "Round all floating-point numbers to exactly"

/-- The patterns whose absence from compiled prompts is settled below: the
four format guidance phrases and the rounding-instruction head. -/
def promptPatterns : List String :=
  [formatGuidance "JSON", formatGuidance "CSV", formatGuidance "XML",
    formatGuidance "TXT", roundInstructionHead]

/-! ## Lemmas about the substring kit -/

set_option maxRecDepth 100000
set_option maxHeartbeats 2000000

theorem strHasPre_iff (p l : List Char) : strHasPre p l = true ↔ ∃ t, l = p ++ t := by
  induction p generalizing l with
  | nil => simp [strHasPre]
  | cons c ps ih =>
    cases l with
    | nil => simp [strHasPre]
    | cons d ds =>
      rw [show strHasPre (c :: ps) (d :: ds) = (c == d && strHasPre ps ds) from rfl,
        Bool.and_eq_true, beq_iff_eq, ih]
      constructor
      · rintro ⟨rfl, t, rfl⟩
        exact ⟨t, rfl⟩
      · rintro ⟨t, h⟩
        injection h with h1 h2
        exact ⟨h1.symm, t, h2⟩

theorem strHasSub_iff (p l : List Char) :
    strHasSub p l = true ↔ ∃ pre post, l = pre ++ p ++ post := by
  induction l with
  | nil =>
    rw [show strHasSub p [] = strHasPre p [] from rfl, strHasPre_iff]
    constructor
    · rintro ⟨t, h⟩
      rcases List.append_eq_nil.mp h.symm with ⟨rfl, rfl⟩
      exact ⟨[], [], rfl⟩
    · rintro ⟨pre, post, h⟩
      rcases List.append_eq_nil.mp h.symm with ⟨h1, rfl⟩
      rcases List.append_eq_nil.mp h1 with ⟨rfl, rfl⟩
      exact ⟨[], rfl⟩
  | cons c cs ih =>
    rw [show strHasSub p (c :: cs) = (strHasPre p (c :: cs) || strHasSub p cs) from rfl,
      Bool.or_eq_true, strHasPre_iff, ih]
    constructor
    · rintro (⟨t, h⟩ | ⟨pre, post, h⟩)
      · exact ⟨[], t, by simpa using h⟩
      · exact ⟨c :: pre, post, by simp [h]⟩
    · rintro ⟨pre, post, h⟩
      cases pre with
      | nil => exact Or.inl ⟨post, by simpa using h⟩
      | cons x xs =>
        injection h with h1 h2
        exact Or.inr ⟨xs, post, h2⟩

theorem containsSub_iff (s pat : String) :
    containsSub s pat = true ↔ ∃ pre post, s.data = pre ++ pat.data ++ post :=
  strHasSub_iff pat.data s.data

theorem containsSub_of_eq (s pre pat post : String) (h : s = pre ++ (pat ++ post)) :
    containsSub s pat = true := by
  rw [containsSub_iff]
  exact ⟨pre.data, post.data, by rw [h]; simp [String.data_append, List.append_assoc]⟩

theorem isSuffixB_iff (x l : List Char) : isSuffixB x l = true ↔ ∃ u, l = u ++ x := by
  rw [isSuffixB, strHasPre_iff]
  constructor
  · rintro ⟨t, h⟩
    refine ⟨t.reverse, ?_⟩
    have h2 := congrArg List.reverse h
    simpa using h2
  · rintro ⟨u, rfl⟩
    exact ⟨u.reverse, by simp⟩

theorem straddles_iff (p a b : List Char) :
    straddles p a b = true ↔
      ∃ i, i ≠ 0 ∧ i < p.length ∧ (∃ u, a = u ++ p.take i) ∧ ∃ v, b = p.drop i ++ v := by
  rw [straddles, List.any_eq_true]
  constructor
  · rintro ⟨i, hi, h⟩
    rw [Bool.and_eq_true, Bool.and_eq_true] at h
    obtain ⟨⟨hne, hsuf⟩, hpre⟩ := h
    exact ⟨i, by simpa using hne, List.mem_range.mp hi,
      (isSuffixB_iff _ _).mp hsuf, (strHasPre_iff _ _).mp hpre⟩
  · rintro ⟨i, hne, hlt, hsuf, hpre⟩
    refine ⟨i, List.mem_range.mpr hlt, ?_⟩
    rw [Bool.and_eq_true, Bool.and_eq_true]
    exact ⟨⟨by simpa using hne, (isSuffixB_iff _ _).mpr hsuf⟩, (strHasPre_iff _ _).mpr hpre⟩

theorem sub_append_iff (p a b : List Char) :
    strHasSub p (a ++ b) = true ↔
      strHasSub p a = true ∨ strHasSub p b = true ∨ straddles p a b = true := by
  rw [strHasSub_iff, strHasSub_iff, strHasSub_iff, straddles_iff]
  constructor
  · rintro ⟨pre, post, h⟩
    rw [List.append_assoc] at h
    rcases List.append_eq_append_iff.mp h with ⟨w, hw1, hw2⟩ | ⟨w, hw1, hw2⟩
    · right; left
      exact ⟨w, post, by rw [hw2, List.append_assoc]⟩
    · rcases List.append_eq_append_iff.mp hw2 with ⟨v, hv1, hv2⟩ | ⟨v, hv1, hv2⟩
      · left
        exact ⟨pre, v, by rw [hw1, hv1, List.append_assoc]⟩
      · by_cases hw : w = []
        · subst hw
          right; left
          simp only [List.nil_append] at hv1
          exact ⟨[], post, by simp [hv2, ← hv1]⟩
        · by_cases hv : v = []
          · subst hv
            left
            rw [List.append_nil] at hv1
            exact ⟨pre, [], by simp [hw1, ← hv1]⟩
          · right; right
            refine ⟨w.length, ?_, ?_, ⟨pre, ?_⟩, ⟨post, ?_⟩⟩
            · intro h0
              exact hw (List.length_eq_zero.mp h0)
            · rw [hv1, List.length_append]
              exact Nat.lt_add_of_pos_right (List.length_pos.mpr hv)
            · rw [hv1, List.take_left]
              exact hw1
            · rw [hv1, List.drop_left]
              exact hv2
  · rintro (⟨pre, post, h⟩ | ⟨pre, post, h⟩ | ⟨i, hne, hlt, ⟨u, hu⟩, ⟨v, hv⟩⟩)
    · exact ⟨pre, post ++ b, by rw [h]; simp [List.append_assoc]⟩
    · exact ⟨a ++ pre, post, by rw [h]; simp [List.append_assoc]⟩
    · refine ⟨u, v, ?_⟩
      calc a ++ b = (u ++ List.take i p) ++ (List.drop i p ++ v) := by rw [hu, hv]
        _ = u ++ p ++ v := by
            simp only [List.append_assoc]
            have htd : List.take i p ++ (List.drop i p ++ v) = p ++ v := by
              rw [← List.append_assoc, List.take_append_drop]
            rw [htd]

theorem containsSub_append_eq_false {x y pat : String}
    (hx : containsSub x pat = false) (hy : containsSub y pat = false)
    (hs : straddles pat.data x.data y.data = false) :
    containsSub (x ++ y) pat = false := by
  have hx' : strHasSub pat.data x.data = false := hx
  have hy' : strHasSub pat.data y.data = false := hy
  show strHasSub pat.data ((x ++ y).data) = false
  rw [String.data_append]
  cases hgo : strHasSub pat.data (x.data ++ y.data) with
  | false => rfl
  | true =>
    rcases (sub_append_iff _ _ _).mp hgo with h | h | h
    · rw [hx'] at h; exact absurd h (by simp)
    · rw [hy'] at h; exact absurd h (by simp)
    · rw [hs] at h; exact absurd h (by simp)

theorem straddles_eq_false_of_anySuffix {p a : List Char} (h : anySuffix p a = false)
    (b : List Char) : straddles p a b = false := by
  cases hst : straddles p a b with
  | false => rfl
  | true =>
    exfalso
    rw [straddles, List.any_eq_true] at hst
    obtain ⟨i, hi, hcond⟩ := hst
    rw [Bool.and_eq_true, Bool.and_eq_true] at hcond
    have hmem : anySuffix p a = true := by
      rw [anySuffix, List.any_eq_true]
      refine ⟨i, hi, ?_⟩
      rw [Bool.and_eq_true]
      exact hcond.1
    rw [h] at hmem
    exact absurd hmem (by simp)

theorem strHasPre_append_of_le (x a r : List Char) (h : x.length ≤ a.length) :
    strHasPre x (a ++ r) = strHasPre x a := by
  induction x generalizing a with
  | nil => rfl
  | cons c cs ih =>
    cases a with
    | nil => simp at h
    | cons d ds =>
      show (c == d && strHasPre cs (ds ++ r)) = (c == d && strHasPre cs ds)
      rw [ih ds (by simpa [Nat.succ_le_succ_iff] using h)]

theorem any_congr_aux {α : Type} (l : List α) (f g : α → Bool)
    (h : ∀ x ∈ l, f x = g x) : l.any f = l.any g := by
  induction l with
  | nil => rfl
  | cons c cs ih =>
    show (f c || cs.any f) = (g c || cs.any g)
    rw [h c (by simp), ih (fun x hx => h x (by simp [hx]))]

theorem straddles_append_of_le (p a b r : List Char) (h : p.length ≤ b.length) :
    straddles p a (b ++ r) = straddles p a b := by
  rw [straddles, straddles]
  apply any_congr_aux
  intro i _
  rw [strHasPre_append_of_le]
  calc (p.drop i).length = p.length - i := List.length_drop i p
    _ ≤ p.length := Nat.sub_le _ _
    _ ≤ b.length := h

/-! ## Decomposing the compiled prompt -/

theorem systemInstruction_not_contains (f : String) (o : GenerationOptions) (pat : String)
    (h1 : containsSub siHeader pat = false) (a1 : anySuffix pat.data siHeader.data = false)
    (h2 : containsSub frPre pat = false) (a2 : anySuffix pat.data frPre.data = false)
    (h3 : containsSub o.dateFormat pat = false)
    (a3 : anySuffix pat.data o.dateFormat.data = false)
    (h4 : containsSub frMid pat = false) (a4 : anySuffix pat.data frMid.data = false)
    (h5 : containsSub (precisionText o.decimalPlaces) pat = false)
    (a5 : anySuffix pat.data (precisionText o.decimalPlaces).data = false)
    (h6 : containsSub frTail pat = false) (a6 : anySuffix pat.data frTail.data = false)
    (h7 : containsSub siMid pat = false) (a7 : anySuffix pat.data siMid.data = false)
    (h8 : containsSub (specificInstructions f) pat = false)
    (a8 : anySuffix pat.data (specificInstructions f).data = false)
    (h9 : containsSub siTail pat = false) :
    containsSub (systemInstruction f o) pat = false := by
  have hS : systemInstruction f o =
      siHeader ++ (frPre ++ (o.dateFormat ++ (frMid ++ (precisionText o.decimalPlaces ++
        (frTail ++ (siMid ++ (specificInstructions f ++ siTail))))))) := by
    rw [systemInstruction, formattingRules]
    simp only [String.append_assoc]
  rw [hS]
  apply containsSub_append_eq_false h1 ?_ (straddles_eq_false_of_anySuffix a1 _)
  apply containsSub_append_eq_false h2 ?_ (straddles_eq_false_of_anySuffix a2 _)
  apply containsSub_append_eq_false h3 ?_ (straddles_eq_false_of_anySuffix a3 _)
  apply containsSub_append_eq_false h4 ?_ (straddles_eq_false_of_anySuffix a4 _)
  apply containsSub_append_eq_false h5 ?_ (straddles_eq_false_of_anySuffix a5 _)
  apply containsSub_append_eq_false h6 ?_ (straddles_eq_false_of_anySuffix a6 _)
  apply containsSub_append_eq_false h7 ?_ (straddles_eq_false_of_anySuffix a7 _)
  exact containsSub_append_eq_false h8 h9 (straddles_eq_false_of_anySuffix a8 _)

theorem pieces_not_contain : ∀ pat ∈ promptPatterns,
    (containsSub siHeader pat = false ∧ anySuffix pat.data siHeader.data = false) ∧
    (containsSub frPre pat = false ∧ anySuffix pat.data frPre.data = false) ∧
    (containsSub frMid pat = false ∧ anySuffix pat.data frMid.data = false) ∧
    (containsSub frTail pat = false ∧ anySuffix pat.data frTail.data = false) ∧
    (containsSub siMid pat = false ∧ anySuffix pat.data siMid.data = false) ∧
    containsSub siTail pat = false := by decide

theorem dateFormats_not_contain : ∀ d ∈ allowedDateFormats, ∀ pat ∈ promptPatterns,
    containsSub d pat = false ∧ anySuffix pat.data d.data = false := by decide

theorem prec_not_contains_guidance : ∀ dp ∈ allowedDecimalPlaces, ∀ g ∈ knownFormats,
    containsSub (precisionText dp) (formatGuidance g) = false ∧
    anySuffix (formatGuidance g).data (precisionText dp).data = false := by decide

theorem prec_default_not_contains_round :
    containsSub (precisionText "default") roundInstructionHead = false ∧
    anySuffix roundInstructionHead.data (precisionText "default").data = false := by decide

theorem spec_not_contains_other : ∀ f ∈ knownFormats, ∀ g ∈ knownFormats, g ≠ f →
    containsSub (specificInstructions f) (formatGuidance g) = false ∧
    anySuffix (formatGuidance g).data (specificInstructions f).data = false := by decide

theorem specificInstructions_cases (f : String) :
    specificInstructions f = specificInstructions "JSON" ∨
    specificInstructions f = specificInstructions "CSV" ∨
    specificInstructions f = specificInstructions "XML" ∨
    specificInstructions f = specificInstructions "TXT" ∨
    specificInstructions f = "" := by
  by_cases h1 : f = "JSON"
  · left; rw [h1]
  · by_cases h2 : f = "CSV"
    · right; left; rw [h2]
    · by_cases h3 : f = "XML"
      · right; right; left; rw [h3]
      · by_cases h4 : f = "TXT"
        · right; right; right; left; rw [h4]
        · right; right; right; right
          unfold specificInstructions
          rw [if_neg h1, if_neg h2, if_neg h3, if_neg h4]

theorem spec_not_contains_round (f : String) :
    containsSub (specificInstructions f) roundInstructionHead = false ∧
    anySuffix roundInstructionHead.data (specificInstructions f).data = false := by
  rcases specificInstructions_cases f with h | h | h | h | h <;> rw [h] <;> decide

theorem mem_promptPatterns_of_known : ∀ g ∈ knownFormats,
    formatGuidance g ∈ promptPatterns := by decide

theorem roundInstructionHead_mem : roundInstructionHead ∈ promptPatterns := by decide

theorem systemInstruction_not_contains_allowed (f : String) (o : GenerationOptions)
    (pat : String) (hpat : pat ∈ promptPatterns) (hd : o.dateFormat ∈ allowedDateFormats)
    (hprec : containsSub (precisionText o.decimalPlaces) pat = false ∧
      anySuffix pat.data (precisionText o.decimalPlaces).data = false)
    (hspec : containsSub (specificInstructions f) pat = false ∧
      anySuffix pat.data (specificInstructions f).data = false) :
    containsSub (systemInstruction f o) pat = false := by
  obtain ⟨⟨p1, p2⟩, ⟨p3, p4⟩, ⟨p5, p6⟩, ⟨p7, p8⟩, ⟨p9, p10⟩, p11⟩ :=
    pieces_not_contain pat hpat
  obtain ⟨d1, d2⟩ := dateFormats_not_contain o.dateFormat hd pat hpat
  exact systemInstruction_not_contains f o pat p1 p2 p3 p4 d1 d2 p5 p6
    hprec.1 hprec.2 p7 p8 p9 p10 hspec.1 hspec.2 p11

theorem systemInstruction_contains_spec_part (f : String) (o : GenerationOptions)
    (pat sA sB : String) (hsplit : specificInstructions f = sA ++ (pat ++ sB)) :
    containsSub (systemInstruction f o) pat = true := by
  apply containsSub_of_eq _ (siHeader ++ formattingRules o ++ siMid ++ sA) _ (sB ++ siTail)
  rw [systemInstruction, hsplit]
  simp only [String.append_assoc]

/-! ## The claims -/

/-- C2 counterexample: at the concrete unknown format `"YAML"` the prompt
compiler produces no format-specific guidance at all — `specificInstructions`
is the empty string and the compiled system instruction does not contain the
plain-text guidance — refuting the claim that an unrecognized format falls
back to a generic/plain-text instruction set rather than producing no
format-specific guidance. -/
theorem c2_unknown_format_counterexample :
    specificInstructions "YAML" = "" ∧
    containsSub (systemInstruction "YAML" ⟨"ISO 8601", "default"⟩)
      (formatGuidance "TXT") = false := by
  constructor
  · decide
  · apply systemInstruction_not_contains_allowed _ _ _ (by decide) (by decide)
    · exact prec_not_contains_guidance "default" (by decide) "TXT" (by decide)
    · exact ⟨by decide, by decide⟩

/-- C2 (amended): the prompt-compilation step of `generateDummyData` is a
total function that never fails, and for a format outside the four known
formats the format-specific instruction section is left empty — the compiled
prompt keeps only the universal rules, with no plain-text fallback. -/
theorem c2_amended_unknown_format_empty (format : String)
    (h : format ∉ knownFormats) : specificInstructions format = "" := by
  simp only [knownFormats, List.mem_cons, List.not_mem_nil, or_false, not_or] at h
  obtain ⟨h1, h2, h3, h4⟩ := h
  unfold specificInstructions
  rw [if_neg h1, if_neg h2, if_neg h3, if_neg h4]

/-- C2 witness: the amended statement at the concrete format `"YAML"`. -/
theorem c2_amended_witness : specificInstructions "YAML" = "" :=
  c2_amended_unknown_format_empty "YAML" (by decide)

/-- C6: for every generation options value (with the date format drawn from
the UI enumeration), if `decimalPlaces` is `"default"` the compiled system
instruction contains no rounding instruction, and otherwise it contains the
rounding instruction mentioning exactly the requested count. -/
theorem c6_decimal_places_instruction (f : String) (o : GenerationOptions)
    (hd : o.dateFormat ∈ allowedDateFormats) :
    (o.decimalPlaces = "default" →
      containsSub (systemInstruction f o) roundInstructionHead = false) ∧
    (o.decimalPlaces ≠ "default" →
      containsSub (systemInstruction f o)
        ("Round all floating-point numbers to exactly " ++ o.decimalPlaces ++
          " decimal places.") = true) := by
  constructor
  · intro hdp
    apply systemInstruction_not_contains_allowed f o _ roundInstructionHead_mem hd
    · rw [hdp]
      exact prec_default_not_contains_round
    · exact spec_not_contains_round f
  · intro hdp
    apply containsSub_of_eq _ (siHeader ++ frPre ++ o.dateFormat ++ frMid) _
      (frTail ++ siMid ++ specificInstructions f ++ siTail)
    rw [systemInstruction, formattingRules, precisionText, if_pos hdp]
    simp only [String.append_assoc]

/-- C6 witness: with `decimalPlaces = "default"` no rounding instruction
appears; with `decimalPlaces = "2"` the instruction mentioning `2` appears. -/
theorem c6_witness :
    containsSub (systemInstruction "JSON" ⟨"ISO 8601", "default"⟩)
      roundInstructionHead = false ∧
    containsSub (systemInstruction "JSON" ⟨"ISO 8601", "2"⟩)
      ("Round all floating-point numbers to exactly " ++ "2" ++
        " decimal places.") = true :=
  ⟨(c6_decimal_places_instruction "JSON" ⟨"ISO 8601", "default"⟩ (by decide)).1 rfl,
    (c6_decimal_places_instruction "JSON" ⟨"ISO 8601", "2"⟩ (by decide)).2 (by decide)⟩

/-- C7: for each of the four formats (options drawn from the UI
enumerations), the compiled system instruction contains the keyword guidance
of that format and never contains the guidance of another format. -/
theorem c7_format_guidance_exclusive (f : String) (hf : f ∈ knownFormats)
    (o : GenerationOptions) (hd : o.dateFormat ∈ allowedDateFormats)
    (hp : o.decimalPlaces ∈ allowedDecimalPlaces) :
    containsSub (systemInstruction f o) (formatGuidance f) = true ∧
    ∀ g ∈ knownFormats, g ≠ f →
      containsSub (systemInstruction f o) (formatGuidance g) = false := by
  constructor
  · have hf' : f = "JSON" ∨ f = "CSV" ∨ f = "XML" ∨ f = "TXT" := by
      simpa [knownFormats] using hf
    rcases hf' with rfl | rfl | rfl | rfl
    · exact systemInstruction_contains_spec_part _ o _ "\n      - "
        ".\n      - Support nested objects and arrays deeply if requested.\n      - Use specific data types (boolean, numbers, null) correctly, do not wrap everything in strings unless necessary.\n      "
        (by decide)
    · exact systemInstruction_contains_spec_part _ o _ "\n      - "
        ".\n      - If nested data is requested, flatten it using dot notation for headers (e.g., \x27address.city\x27) or understandable conventions.\n      - Enclose strings containing commas in quotes.\n      "
        (by decide)
    · exact systemInstruction_contains_spec_part _ o _ "\n      - "
        " (e.g., <root> or <data> if not specified).\n      - Use semantic tags based on property names.\n      - Handle nested structures as nested elements.\n      "
        (by decide)
    · exact systemInstruction_contains_spec_part _ o _ "\n      - "
        " (e.g., lists, paragraphs).\n      "
        (by decide)
  · intro g hg hne
    exact systemInstruction_not_contains_allowed f o _
      (mem_promptPatterns_of_known g hg) hd
      (prec_not_contains_guidance o.decimalPlaces hp g hg)
      (spec_not_contains_other f hf g hg hne)

/-- C7 witness: the JSON prompt at concrete options contains the JSON guidance
and not the CSV guidance. -/
theorem c7_witness :
    containsSub (systemInstruction "JSON" ⟨"ISO 8601", "default"⟩)
      (formatGuidance "JSON") = true ∧
    containsSub (systemInstruction "JSON" ⟨"ISO 8601", "default"⟩)
      (formatGuidance "CSV") = false :=
  ⟨(c7_format_guidance_exclusive "JSON" (by decide) ⟨"ISO 8601", "default"⟩
      (by decide) (by decide)).1,
    (c7_format_guidance_exclusive "JSON" (by decide) ⟨"ISO 8601", "default"⟩
      (by decide) (by decide)).2 "CSV" (by decide) (by decide)⟩

/-- C1 (code-bug evidence): at a concrete failing input — a transport run that
delivers the fragment `"partial"` and then errors — `generateDummyData`
resolves successfully (`Except.ok ()`) instead of rejecting: its internal
`catch` only logs. Consequently `handleGenerate` never reaches its own catch,
no user-visible error message is set (`error = none`), while the partial
output already delivered is kept. The claim (and the spec) say the failure is
surfaced as a rejected operation and a generic error message is shown. -/
theorem c1_transport_failure_swallowed :
    (generateDummyData "5 users" "JSON" ⟨"ISO 8601", "default"⟩
        ⟨[⟨some "partial"⟩], true⟩).2 = Except.ok () ∧
    (handleGenerate ⟨"5 users", "JSON", "ISO 8601", "default", "", false, none⟩
        ⟨[⟨some "partial"⟩], true⟩).1.error = none ∧
    (handleGenerate ⟨"5 users", "JSON", "ISO 8601", "default", "", false, none⟩
        ⟨[⟨some "partial"⟩], true⟩).1.generatedData = "partial" := by
  refine ⟨rfl, ?_, ?_⟩ <;> decide

/-- C3 counterexample: a delivered chunk whose text is the empty string is a
received text fragment, yet `onChunk` is not invoked for it — refuting "for
every text fragment received, onChunk is invoked exactly once". -/
theorem c3_empty_fragment_counterexample :
    onChunkCalls [⟨some ""⟩] ≠ receivedTextFragments [⟨some ""⟩] := by decide

/-- C3 (amended): the streaming client invokes `onChunk` exactly once, in
arrival order, for every received text fragment that is non-empty; fragments
with empty or absent text are skipped, and no fragments are reordered or
merged — the call sequence is exactly the in-order non-empty fragments. -/
theorem c3_amended_nonempty_fragments (chunks : List StreamChunk) :
    onChunkCalls chunks =
      (receivedTextFragments chunks).filter (fun t => t != "") := by
  induction chunks with
  | nil => rfl
  | cons c rest ih =>
    cases hc : c.text with
    | none =>
      simp [onChunkCalls, receivedTextFragments, hc, List.filterMap_cons] at ih ⊢
      exact ih
    | some t =>
      by_cases ht : t = ""
      · subst ht
        simp [onChunkCalls, receivedTextFragments, hc, List.filterMap_cons,
          List.filter] at ih ⊢
        exact ih
      · simp [onChunkCalls, receivedTextFragments, hc, List.filterMap_cons,
          List.filter, ht] at ih ⊢
        exact ih

/-- C4: a submission whose prompt trims to the empty string makes no network
call (`generateDummyData` is not invoked) and always sets the user-visible
validation error message. -/
theorem c4_empty_prompt_no_network (s : AppState) (outcome : StreamOutcome)
    (h : jsTrim s.prompt = "") :
    (handleGenerate s outcome).2 = false ∧
    (handleGenerate s outcome).1.error = some validationErrorMsg := by
  simp [handleGenerate, h]

/-- C4 witness: a whitespace-only prompt at concrete state. -/
theorem c4_witness :
    (handleGenerate ⟨"   ", "JSON", "ISO 8601", "default", "old data", false, none⟩
        ⟨[⟨some "x"⟩], false⟩).2 = false ∧
    (handleGenerate ⟨"   ", "JSON", "ISO 8601", "default", "old data", false, none⟩
        ⟨[⟨some "x"⟩], false⟩).1.error = some validationErrorMsg :=
  c4_empty_prompt_no_network _ _ (by decide)

/-- C5: for a non-empty prompt, the accumulator is reset at the start of the
generation — whatever `generatedData` held before — and the final stored
string is exactly the in-order concatenation of the delivered chunks. -/
theorem c5_accumulator_concat (s : AppState) (outcome : StreamOutcome)
    (h : jsTrim s.prompt ≠ "") :
    (handleGenerate s outcome).1.generatedData =
      String.join (onChunkCalls outcome.chunks) := by
  simp [handleGenerate, h, generateDummyData, String.join]

/-- C5 witness: chunks `["a", "b", "c"]` delivered in order over a stale
accumulator produce exactly `"abc"`. -/
theorem c5_witness :
    (handleGenerate ⟨"5 users", "JSON", "ISO 8601", "default", "stale", false, none⟩
        ⟨[⟨some "a"⟩, ⟨some "b"⟩, ⟨some "c"⟩], false⟩).1.generatedData = "abc" :=
  (c5_accumulator_concat _ _ (by decide)).trans (by decide)

/-- C8: `downloadData` is a no-op on empty content; otherwise it saves
`dummy-data.<ext>` with `<ext>` the lower-cased format name and the MIME type
given by the fixed table (JSON→application/json, CSV→text/csv,
XML→application/xml, TXT→text/plain, default text/plain). -/
theorem c8_download_contract (content format : String) :
    (content = "" → downloadData content format = none) ∧
    (content ≠ "" → downloadData content format =
      some ⟨"dummy-data." ++ jsToLowerCase format, getMimeType format, content⟩) ∧
    getMimeType "JSON" = "application/json" ∧
    getMimeType "CSV" = "text/csv" ∧
    getMimeType "XML" = "application/xml" ∧
    getMimeType "TXT" = "text/plain" ∧
    (format ∉ knownFormats → getMimeType format = "text/plain") := by
  refine ⟨?_, ?_, by decide, by decide, by decide, by decide, ?_⟩
  · intro h
    simp [downloadData, h]
  · intro h
    simp [downloadData, getFileExtension, h]
  · intro h
    simp only [knownFormats, List.mem_cons, List.not_mem_nil, or_false, not_or] at h
    obtain ⟨h1, h2, h3, h4⟩ := h
    simp [getMimeType, h1, h2, h3, h4]

/-- C8 witness: concrete saves — non-empty CSV content saves
`dummy-data.csv` as `text/csv`; empty content is a no-op. -/
theorem c8_witness :
    downloadData "x" "CSV" = some ⟨"dummy-data.csv", "text/csv", "x"⟩ ∧
    downloadData "" "CSV" = none :=
  ⟨((c8_download_contract "x" "CSV").2.1 (by decide)).trans (by decide),
    (c8_download_contract "" "CSV").1 rfl⟩

/-- C9: when the stored data exceeds the fixed 50-line threshold, the
component truncates only the visual display to the first 50 lines and the
annotation figure equals exactly the number of additional lines, while copy
and download still operate on the unchanged stored string. -/
theorem c9_display_truncation (data format : String)
    (h : 50 < (splitLines data).length) :
    (renderDataDisplay data).isTruncated = true ∧
    (renderDataDisplay data).displayData =
      String.intercalate "\n" ((splitLines data).take 50) ∧
    (renderDataDisplay data).remainingLines =
      (((splitLines data).drop 50).length : Int) ∧
    handleCopy data = some data ∧
    handleDownload data format =
      some ⟨"dummy-data." ++ jsToLowerCase format, getMimeType format, data⟩ := by
  have hne : data ≠ "" := by
    intro he
    rw [he] at h
    simp [splitLines, splitOnNewline] at h
  refine ⟨?_, ?_, ?_, ?_, ?_⟩
  · simp [renderDataDisplay]
    exact h
  · simp [renderDataDisplay, h]
  · simp only [renderDataDisplay, List.length_drop]
    omega
  · simp [handleCopy, hne]
  · simp [handleDownload, downloadData, getFileExtension, hne]

/-- C9 witness: a 51-line data string is truncated with one remaining line
annotated, and download still carries the full string. -/
theorem c9_witness :
    (renderDataDisplay (String.mk (List.replicate 50 '\n'))).isTruncated = true ∧
    (renderDataDisplay (String.mk (List.replicate 50 '\n'))).remainingLines = 1 :=
  ⟨(c9_display_truncation (String.mk (List.replicate 50 '\n')) "TXT" (by decide)).1,
    ((c9_display_truncation (String.mk (List.replicate 50 '\n')) "TXT"
        (by decide)).2.2.1).trans (by decide)⟩

/-- C10: rejecting a submission for an empty/whitespace prompt is atomic —
the handler returns before any state reset, leaving the previously generated
data and the loading flag (and the rest of the state) unchanged; only the
error message is set. -/
theorem c10_validation_atomic (s : AppState) (outcome : StreamOutcome)
    (h : jsTrim s.prompt = "") :
    (handleGenerate s outcome).1.generatedData = s.generatedData ∧
    (handleGenerate s outcome).1.isLoading = s.isLoading ∧
    (handleGenerate s outcome).1.error = some validationErrorMsg ∧
    (handleGenerate s outcome).1.prompt = s.prompt ∧
    (handleGenerate s outcome).1.format = s.format := by
  simp [handleGenerate, h]

/-- C10 witness: a whitespace prompt over a state holding previous data and a
set loading flag leaves both untouched. -/
theorem c10_witness :
    (handleGenerate ⟨" \t ", "CSV", "ISO 8601", "2", "previous", true, none⟩
        ⟨[], true⟩).1.generatedData = "previous" ∧
    (handleGenerate ⟨" \t ", "CSV", "ISO 8601", "2", "previous", true, none⟩
        ⟨[], true⟩).1.isLoading = true :=
  ⟨(c10_validation_atomic _ _ (by decide)).1,
    (c10_validation_atomic _ _ (by decide)).2.1⟩
